import Mathlib

/-!
Shallow embedding of the elfatih backend (FastAPI + SQLAlchemy) for
specification checking.

The embedding translates the data-access and route-handler logic of
`crud/post.py`, `crud/user.py`, `crud/device.py`, `api/users.py`,
`utils/image_utils.py` and `utils/qr_utils.py` into pure Lean functions.
Database tables become lists of rows; the SQLAlchemy `query(...).first()`
idiom becomes a first-match search on the list; Python's `max(0, n - 1)`
on an integer column becomes `max 0 (n - 1)` on `Int`.  External
libraries (PIL decoding/encoding, the QR rasterizer, the password hash,
the clock) are treated as black boxes: they appear as parameters or as
the structured data they produce, never as reimplemented algorithms.
-/

set_option autoImplicit false

/-! ## Post feedback model (`crud/post.py`)

`PostFeedback` rows for one post are modelled as an association list from
`user_id` to the stored `feedback_type`; the post's two counter columns
are `Int` (SQLAlchemy `Integer`).  The functions below mirror
`PostCRUD.add_feedback` and `PostCRUD.remove_feedback` line by line for
the case where the post row exists (`get_by_id` succeeded); the
`post is None` early return carries no counter behaviour.
-/

/-- `FeedbackType` enum from `models/post.py`. -/
inductive FeedbackType where
  | positive
  | negative
deriving DecidableEq, Repr

/-- The slice of database state owned by one post: its two denormalized
counter columns and its `post_feedbacks` rows, keyed by `user_id`. -/
structure PostState where
  positive_feedbacks : Int
  negative_feedbacks : Int
  feedbacks : List (Nat × FeedbackType)
deriving DecidableEq, Repr

/-- `query(PostFeedback).filter(post_id == .., user_id == ..).first()`:
first row for this user, if any. -/
def findFeedback : List (Nat × FeedbackType) → Nat → Option FeedbackType
  | [], _ => none
  | (u, t) :: rest, user_id =>
      if u = user_id then some t else findFeedback rest user_id

/-- Mutating `existing_feedback.feedback_type` in place: replace the type
stored on the first row with this `user_id`. -/
def setFeedback : List (Nat × FeedbackType) → Nat → FeedbackType → List (Nat × FeedbackType)
  | [], _, _ => []
  | (u, t0) :: rest, user_id, t =>
      if u = user_id then (u, t) :: rest else (u, t0) :: setFeedback rest user_id t

/-- `db.delete(feedback)`: drop the first row with this `user_id`. -/
def deleteFeedback : List (Nat × FeedbackType) → Nat → List (Nat × FeedbackType)
  | [], _ => []
  | (u, t0) :: rest, user_id =>
      if u = user_id then rest else (u, t0) :: deleteFeedback rest user_id

/-- `PostCRUD.add_feedback` (crud/post.py lines 176-224), restricted to an
existing post.  If the user already has a feedback row its type is
overwritten, the counter of the old type is decremented (floored at 0 by
`max(0, ...)`) and the counter of the new type incremented; otherwise a
new row is appended and the matching counter incremented. -/
def add_feedback (s : PostState) (user_id : Nat) (ft : FeedbackType) : PostState :=
  match findFeedback s.feedbacks user_id with
  | some old_feedback_type =>
      let s1 : PostState := { s with feedbacks := setFeedback s.feedbacks user_id ft }
      let s2 : PostState :=
        match old_feedback_type with
        | .positive => { s1 with positive_feedbacks := max 0 (s1.positive_feedbacks - 1) }
        | .negative => { s1 with negative_feedbacks := max 0 (s1.negative_feedbacks - 1) }
      match ft with
      | .positive => { s2 with positive_feedbacks := s2.positive_feedbacks + 1 }
      | .negative => { s2 with negative_feedbacks := s2.negative_feedbacks + 1 }
  | none =>
      let s1 : PostState := { s with feedbacks := s.feedbacks ++ [(user_id, ft)] }
      match ft with
      | .positive => { s1 with positive_feedbacks := s1.positive_feedbacks + 1 }
      | .negative => { s1 with negative_feedbacks := s1.negative_feedbacks + 1 }

/-- `PostCRUD.remove_feedback` (crud/post.py lines 226-245): returns
`False` and changes nothing when the user has no feedback row; otherwise
decrements the counter matching the row's type (floored at 0), deletes
the row, and returns `True`. -/
def remove_feedback (s : PostState) (user_id : Nat) : Bool × PostState :=
  match findFeedback s.feedbacks user_id with
  | none => (false, s)
  | some t =>
      let s1 : PostState :=
        match t with
        | .positive => { s with positive_feedbacks := max 0 (s.positive_feedbacks - 1) }
        | .negative => { s with negative_feedbacks := max 0 (s.negative_feedbacks - 1) }
      (true, { s1 with feedbacks := deleteFeedback s1.feedbacks user_id })

/-- Number of positive feedback rows. -/
def countPos (rows : List (Nat × FeedbackType)) : Int :=
  ((rows.filter (fun r => r.2 == FeedbackType.positive)).length : Int)

/-- Number of negative feedback rows. -/
def countNeg (rows : List (Nat × FeedbackType)) : Int :=
  ((rows.filter (fun r => r.2 == FeedbackType.negative)).length : Int)

/-- The invariant the CRUD layer maintains for every post it creates
(`PostCRUD.create` initializes both counters to 0 with no rows): at most
one feedback row per user, and each counter equal to the number of rows
of its type. -/
def StateWf (s : PostState) : Prop :=
  (s.feedbacks.map Prod.fst).Nodup ∧
    s.positive_feedbacks = countPos s.feedbacks ∧
    s.negative_feedbacks = countNeg s.feedbacks

instance (s : PostState) : Decidable (StateWf s) := by
  unfold StateWf; infer_instance

/-- The post created by `PostCRUD.create`: zero counters, no feedback. -/
def freshPost : PostState := { positive_feedbacks := 0, negative_feedbacks := 0, feedbacks := [] }

theorem freshPost_wf : StateWf freshPost := by decide

/-! ### Association-list lemmas -/

theorem findFeedback_eq_none_iff (rows : List (Nat × FeedbackType)) (uid : Nat) :
    findFeedback rows uid = none ↔ uid ∉ rows.map Prod.fst := by
  induction rows with
  | nil => simp [findFeedback]
  | cons hd tl ih =>
    obtain ⟨u, t⟩ := hd
    by_cases h : u = uid
    · subst h
      simp [findFeedback]
    · simp [findFeedback, h, ih, Ne.symm h]

theorem findFeedback_append_self (rows : List (Nat × FeedbackType)) (uid : Nat)
    (t : FeedbackType) (h : findFeedback rows uid = none) :
    findFeedback (rows ++ [(uid, t)]) uid = some t := by
  induction rows with
  | nil => simp [findFeedback]
  | cons hd tl ih =>
    obtain ⟨u, t0⟩ := hd
    by_cases hu : u = uid
    · subst hu
      simp [findFeedback] at h
    · simp only [findFeedback, hu, if_false, List.cons_append] at h ⊢
      exact ih h

theorem setFeedback_map_fst (rows : List (Nat × FeedbackType)) (uid : Nat) (t : FeedbackType) :
    (setFeedback rows uid t).map Prod.fst = rows.map Prod.fst := by
  induction rows with
  | nil => simp [setFeedback]
  | cons hd tl ih =>
    obtain ⟨u, t0⟩ := hd
    by_cases hu : u = uid
    · simp [setFeedback, hu]
    · simp [setFeedback, hu, ih]

theorem countPos_append (rows : List (Nat × FeedbackType)) (uid : Nat) (t : FeedbackType) :
    countPos (rows ++ [(uid, t)]) =
      countPos rows + (if t = FeedbackType.positive then 1 else 0) := by
  cases t <;> simp [countPos, List.filter_append]

theorem countNeg_append (rows : List (Nat × FeedbackType)) (uid : Nat) (t : FeedbackType) :
    countNeg (rows ++ [(uid, t)]) =
      countNeg rows + (if t = FeedbackType.negative then 1 else 0) := by
  cases t <;> simp [countNeg, List.filter_append]

theorem countPos_setFeedback (rows : List (Nat × FeedbackType)) (uid : Nat)
    (old t : FeedbackType) (h : findFeedback rows uid = some old) :
    countPos (setFeedback rows uid t) =
      countPos rows + (if t = FeedbackType.positive then 1 else 0)
        - (if old = FeedbackType.positive then 1 else 0) := by
  induction rows with
  | nil => simp [findFeedback] at h
  | cons hd tl ih =>
    obtain ⟨u, t0⟩ := hd
    by_cases hu : u = uid
    · subst hu
      have ht0 : t0 = old := by simpa [findFeedback] using h
      subst ht0
      cases t0 <;> cases t <;> simp [setFeedback, countPos]
    · simp only [findFeedback, hu, if_false] at h
      cases hp : (u, t0).2 == FeedbackType.positive <;>
        simp_all [setFeedback, hu, countPos, List.filter_cons, ih h] <;> ring

theorem countNeg_setFeedback (rows : List (Nat × FeedbackType)) (uid : Nat)
    (old t : FeedbackType) (h : findFeedback rows uid = some old) :
    countNeg (setFeedback rows uid t) =
      countNeg rows + (if t = FeedbackType.negative then 1 else 0)
        - (if old = FeedbackType.negative then 1 else 0) := by
  induction rows with
  | nil => simp [findFeedback] at h
  | cons hd tl ih =>
    obtain ⟨u, t0⟩ := hd
    by_cases hu : u = uid
    · subst hu
      have ht0 : t0 = old := by simpa [findFeedback] using h
      subst ht0
      cases t0 <;> cases t <;> simp [setFeedback, countNeg]
    · simp only [findFeedback, hu, if_false] at h
      cases hp : (u, t0).2 == FeedbackType.negative <;>
        simp_all [setFeedback, hu, countNeg, List.filter_cons, ih h] <;> ring

theorem findFeedback_countPos_ge_one (rows : List (Nat × FeedbackType)) (uid : Nat)
    (h : findFeedback rows uid = some FeedbackType.positive) : 1 ≤ countPos rows := by
  induction rows with
  | nil => simp [findFeedback] at h
  | cons hd tl ih =>
    obtain ⟨u, t0⟩ := hd
    by_cases hu : u = uid
    · subst hu
      have ht0 : t0 = FeedbackType.positive := by simpa [findFeedback] using h
      subst ht0
      simp [countPos, List.filter_cons]
    · simp only [findFeedback, hu, if_false] at h
      have := ih h
      have hle : countPos tl ≤ countPos ((u, t0) :: tl) := by
        cases hp : (u, t0).2 == FeedbackType.positive <;>
          simp [countPos, List.filter_cons, hp]
      omega

theorem findFeedback_countNeg_ge_one (rows : List (Nat × FeedbackType)) (uid : Nat)
    (h : findFeedback rows uid = some FeedbackType.negative) : 1 ≤ countNeg rows := by
  induction rows with
  | nil => simp [findFeedback] at h
  | cons hd tl ih =>
    obtain ⟨u, t0⟩ := hd
    by_cases hu : u = uid
    · subst hu
      have ht0 : t0 = FeedbackType.negative := by simpa [findFeedback] using h
      subst ht0
      simp [countNeg, List.filter_cons]
    · simp only [findFeedback, hu, if_false] at h
      have := ih h
      have hle : countNeg tl ≤ countNeg ((u, t0) :: tl) := by
        cases hp : (u, t0).2 == FeedbackType.negative <;>
          simp [countNeg, List.filter_cons, hp]
      omega

theorem countPos_nonneg (rows : List (Nat × FeedbackType)) : 0 ≤ countPos rows := by
  simp [countPos]

theorem countNeg_nonneg (rows : List (Nat × FeedbackType)) : 0 ≤ countNeg rows := by
  simp [countNeg]

/-- Claim C1: starting from a state with no feedback row for the user,
submitting positive feedback twice leaves `positive_feedbacks` exactly one
above its starting value and `negative_feedbacks` unchanged; the second
call has zero net effect on both counters. -/
theorem add_feedback_positive_twice_idempotent (s : PostState) (uid : Nat)
    (hwf : StateWf s) (h : findFeedback s.feedbacks uid = none) :
    (add_feedback s uid FeedbackType.positive).positive_feedbacks = s.positive_feedbacks + 1 ∧
    (add_feedback s uid FeedbackType.positive).negative_feedbacks = s.negative_feedbacks ∧
    (add_feedback (add_feedback s uid FeedbackType.positive) uid FeedbackType.positive).positive_feedbacks
      = s.positive_feedbacks + 1 ∧
    (add_feedback (add_feedback s uid FeedbackType.positive) uid FeedbackType.positive).negative_feedbacks
      = s.negative_feedbacks := by
  obtain ⟨-, hpos, -⟩ := hwf
  have hnn : 0 ≤ s.positive_feedbacks := hpos ▸ countPos_nonneg s.feedbacks
  have h1 : add_feedback s uid FeedbackType.positive =
      { s with positive_feedbacks := s.positive_feedbacks + 1,
               feedbacks := s.feedbacks ++ [(uid, FeedbackType.positive)] } := by
    simp [add_feedback, h]
  have hfind : findFeedback (s.feedbacks ++ [(uid, FeedbackType.positive)]) uid
      = some FeedbackType.positive := findFeedback_append_self _ _ _ h
  refine ⟨by simp [h1], by simp [h1], ?_, ?_⟩
  · rw [h1]
    simp only [add_feedback, hfind]
    try simp
    try omega
  · rw [h1]
    simp only [add_feedback, hfind]
    try simp
    try omega

theorem findFeedback_deleteFeedback (rows : List (Nat × FeedbackType)) (uid : Nat)
    (hnd : (rows.map Prod.fst).Nodup) :
    findFeedback (deleteFeedback rows uid) uid = none := by
  induction rows with
  | nil => simp [deleteFeedback, findFeedback]
  | cons hd tl ih =>
    obtain ⟨u, t0⟩ := hd
    simp only [List.map_cons, List.nodup_cons] at hnd
    by_cases hu : u = uid
    · subst hu
      simp only [deleteFeedback, if_pos rfl]
      exact (findFeedback_eq_none_iff tl u).mpr hnd.1
    · simp [deleteFeedback, hu, findFeedback, ih hnd.2]

theorem deleteFeedback_map_fst_sublist (rows : List (Nat × FeedbackType)) (uid : Nat) :
    ((deleteFeedback rows uid).map Prod.fst).Sublist (rows.map Prod.fst) := by
  induction rows with
  | nil => simp [deleteFeedback]
  | cons hd tl ih =>
    obtain ⟨u, t0⟩ := hd
    by_cases hu : u = uid
    · simp only [deleteFeedback, hu, if_pos rfl, List.map_cons]
      exact List.sublist_cons_self _ _
    · simp only [deleteFeedback, hu, if_false, List.map_cons]
      exact ih.cons₂ u

theorem countPos_deleteFeedback (rows : List (Nat × FeedbackType)) (uid : Nat)
    (t : FeedbackType) (h : findFeedback rows uid = some t) :
    countPos (deleteFeedback rows uid) =
      countPos rows - (if t = FeedbackType.positive then 1 else 0) := by
  induction rows with
  | nil => simp [findFeedback] at h
  | cons hd tl ih =>
    obtain ⟨u, t0⟩ := hd
    by_cases hu : u = uid
    · subst hu
      have ht0 : t0 = t := by simpa [findFeedback] using h
      subst ht0
      cases t0 <;> simp [deleteFeedback, countPos, List.filter_cons]
    · simp only [findFeedback, hu, if_false] at h
      cases hp : (u, t0).2 == FeedbackType.positive <;>
        simp_all [deleteFeedback, hu, countPos, List.filter_cons, ih h]
      omega

theorem countNeg_deleteFeedback (rows : List (Nat × FeedbackType)) (uid : Nat)
    (t : FeedbackType) (h : findFeedback rows uid = some t) :
    countNeg (deleteFeedback rows uid) =
      countNeg rows - (if t = FeedbackType.negative then 1 else 0) := by
  induction rows with
  | nil => simp [findFeedback] at h
  | cons hd tl ih =>
    obtain ⟨u, t0⟩ := hd
    by_cases hu : u = uid
    · subst hu
      have ht0 : t0 = t := by simpa [findFeedback] using h
      subst ht0
      cases t0 <;> simp [deleteFeedback, countNeg, List.filter_cons]
    · simp only [findFeedback, hu, if_false] at h
      cases hp : (u, t0).2 == FeedbackType.negative <;>
        simp_all [deleteFeedback, hu, countNeg, List.filter_cons, ih h]
      omega

/-- `add_feedback` keeps the CRUD-maintained invariant: keys stay distinct
and both counters keep matching the row counts.  Together with
`freshPost_wf` this shows every post state the data-access layer can
produce satisfies `StateWf`. -/
theorem add_feedback_preserves_wf (s : PostState) (uid : Nat) (ft : FeedbackType)
    (hwf : StateWf s) : StateWf (add_feedback s uid ft) := by
  obtain ⟨hnd, hp, hn⟩ := hwf
  cases hfind : findFeedback s.feedbacks uid with
  | none =>
    have huid : uid ∉ s.feedbacks.map Prod.fst := (findFeedback_eq_none_iff _ _).mp hfind
    cases ft <;>
      simp_all [StateWf, add_feedback, hfind, countPos_append, countNeg_append,
        List.nodup_append]
  | some old =>
    have hkeys := setFeedback_map_fst s.feedbacks uid ft
    have hcp := countPos_setFeedback s.feedbacks uid old ft hfind
    have hcn := countNeg_setFeedback s.feedbacks uid old ft hfind
    cases old with
    | positive =>
      have hg := findFeedback_countPos_ge_one _ _ hfind
      cases ft <;> simp_all [StateWf, add_feedback, hfind]
    | negative =>
      have hg := findFeedback_countNeg_ge_one _ _ hfind
      cases ft <;> simp_all [StateWf, add_feedback, hfind]

/-- `remove_feedback` also keeps the invariant. -/
theorem remove_feedback_preserves_wf (s : PostState) (uid : Nat)
    (hwf : StateWf s) : StateWf (remove_feedback s uid).2 := by
  obtain ⟨hnd, hp, hn⟩ := hwf
  cases hfind : findFeedback s.feedbacks uid with
  | none => simp_all [StateWf, remove_feedback, hfind]
  | some t =>
    have hkeys := (deleteFeedback_map_fst_sublist s.feedbacks uid).nodup hnd
    have hcp := countPos_deleteFeedback s.feedbacks uid t hfind
    have hcn := countNeg_deleteFeedback s.feedbacks uid t hfind
    cases t with
    | positive =>
      have hg := findFeedback_countPos_ge_one _ _ hfind
      simp_all [StateWf, remove_feedback, hfind]
      try omega
    | negative =>
      have hg := findFeedback_countNeg_ge_one _ _ hfind
      simp_all [StateWf, remove_feedback, hfind]
      try omega

/-- Claim C2: for a user whose stored feedback row is positive, submitting
negative feedback moves one unit from `positive_feedbacks` to
`negative_feedbacks`, keeping the total unchanged; and symmetrically when
switching from negative to positive. -/
theorem add_feedback_switch_type_counters (s : PostState) (uid : Nat) (hwf : StateWf s) :
    (findFeedback s.feedbacks uid = some FeedbackType.positive →
      (add_feedback s uid FeedbackType.negative).positive_feedbacks = s.positive_feedbacks - 1 ∧
      (add_feedback s uid FeedbackType.negative).negative_feedbacks = s.negative_feedbacks + 1 ∧
      (add_feedback s uid FeedbackType.negative).positive_feedbacks +
          (add_feedback s uid FeedbackType.negative).negative_feedbacks =
        s.positive_feedbacks + s.negative_feedbacks) ∧
    (findFeedback s.feedbacks uid = some FeedbackType.negative →
      (add_feedback s uid FeedbackType.positive).negative_feedbacks = s.negative_feedbacks - 1 ∧
      (add_feedback s uid FeedbackType.positive).positive_feedbacks = s.positive_feedbacks + 1 ∧
      (add_feedback s uid FeedbackType.positive).positive_feedbacks +
          (add_feedback s uid FeedbackType.positive).negative_feedbacks =
        s.positive_feedbacks + s.negative_feedbacks) := by
  obtain ⟨-, hp, hn⟩ := hwf
  constructor
  · intro hf
    have hg : 1 ≤ s.positive_feedbacks := hp ▸ findFeedback_countPos_ge_one _ _ hf
    have h1 : add_feedback s uid FeedbackType.negative =
        { s with feedbacks := setFeedback s.feedbacks uid FeedbackType.negative,
                 positive_feedbacks := max 0 (s.positive_feedbacks - 1),
                 negative_feedbacks := s.negative_feedbacks + 1 } := by
      simp [add_feedback, hf]
    rw [h1]
    refine ⟨?_, ?_, ?_⟩ <;> (try simp) <;> omega
  · intro hf
    have hg : 1 ≤ s.negative_feedbacks := hn ▸ findFeedback_countNeg_ge_one _ _ hf
    have h1 : add_feedback s uid FeedbackType.positive =
        { s with feedbacks := setFeedback s.feedbacks uid FeedbackType.positive,
                 negative_feedbacks := max 0 (s.negative_feedbacks - 1),
                 positive_feedbacks := s.positive_feedbacks + 1 } := by
      simp [add_feedback, hf]
    rw [h1]
    refine ⟨?_, ?_, ?_⟩ <;> (try simp) <;> omega

/-- Claim C3: removing an existing feedback row returns `True`, deletes the
row, decrements the counter matching the row's type by one (floored at
zero, so the result is never negative even if the counter was already 0),
and leaves the other counter unchanged. -/
theorem remove_feedback_existing_row (s : PostState) (uid : Nat) (t : FeedbackType)
    (hnd : (s.feedbacks.map Prod.fst).Nodup)
    (hf : findFeedback s.feedbacks uid = some t) :
    (remove_feedback s uid).1 = true ∧
    findFeedback (remove_feedback s uid).2.feedbacks uid = none ∧
    (t = FeedbackType.positive →
      (1 ≤ s.positive_feedbacks →
        (remove_feedback s uid).2.positive_feedbacks = s.positive_feedbacks - 1) ∧
      (s.positive_feedbacks ≤ 0 → (remove_feedback s uid).2.positive_feedbacks = 0) ∧
      0 ≤ (remove_feedback s uid).2.positive_feedbacks ∧
      (remove_feedback s uid).2.negative_feedbacks = s.negative_feedbacks) ∧
    (t = FeedbackType.negative →
      (1 ≤ s.negative_feedbacks →
        (remove_feedback s uid).2.negative_feedbacks = s.negative_feedbacks - 1) ∧
      (s.negative_feedbacks ≤ 0 → (remove_feedback s uid).2.negative_feedbacks = 0) ∧
      0 ≤ (remove_feedback s uid).2.negative_feedbacks ∧
      (remove_feedback s uid).2.positive_feedbacks = s.positive_feedbacks) := by
  have hdel := findFeedback_deleteFeedback s.feedbacks uid hnd
  cases t with
  | positive =>
    have h1 : remove_feedback s uid =
        (true, { s with positive_feedbacks := max 0 (s.positive_feedbacks - 1),
                        feedbacks := deleteFeedback s.feedbacks uid }) := by
      simp [remove_feedback, hf]
    rw [h1]
    refine ⟨rfl, by simpa using hdel, fun _ => ⟨?_, ?_, ?_, ?_⟩, by simp⟩ <;>
      intros <;> (try simp) <;> (try omega)
  | negative =>
    have h1 : remove_feedback s uid =
        (true, { s with negative_feedbacks := max 0 (s.negative_feedbacks - 1),
                        feedbacks := deleteFeedback s.feedbacks uid }) := by
      simp [remove_feedback, hf]
    rw [h1]
    refine ⟨rfl, by simpa using hdel, by simp, fun _ => ⟨?_, ?_, ?_, ?_⟩⟩ <;>
      intros <;> (try simp) <;> (try omega)

/-- Claim C10: `remove_feedback` for a (post, user) pair with no feedback
row returns `False` and leaves the state untouched. -/
theorem remove_feedback_missing_row (s : PostState) (uid : Nat)
    (h : findFeedback s.feedbacks uid = none) :
    remove_feedback s uid = (false, s) := by
  simp [remove_feedback, h]

/-- Witness for claim C1 at a concrete state. -/
theorem add_feedback_positive_twice_idempotent_witness :
    StateWf ⟨0, 1, [(7, FeedbackType.negative)]⟩ ∧
    findFeedback [(7, FeedbackType.negative)] 3 = none ∧
    ((add_feedback ⟨0, 1, [(7, FeedbackType.negative)]⟩ 3
        FeedbackType.positive).positive_feedbacks = 0 + 1 ∧
     (add_feedback ⟨0, 1, [(7, FeedbackType.negative)]⟩ 3
        FeedbackType.positive).negative_feedbacks = 1 ∧
     (add_feedback (add_feedback ⟨0, 1, [(7, FeedbackType.negative)]⟩ 3
        FeedbackType.positive) 3 FeedbackType.positive).positive_feedbacks = 0 + 1 ∧
     (add_feedback (add_feedback ⟨0, 1, [(7, FeedbackType.negative)]⟩ 3
        FeedbackType.positive) 3 FeedbackType.positive).negative_feedbacks = 1) :=
  ⟨by decide, by decide,
    add_feedback_positive_twice_idempotent ⟨0, 1, [(7, FeedbackType.negative)]⟩ 3
      (by decide) (by decide)⟩

/-- Witness for claim C2 at a concrete state. -/
theorem add_feedback_switch_type_counters_witness :
    StateWf ⟨1, 1, [(3, FeedbackType.positive), (7, FeedbackType.negative)]⟩ ∧
    findFeedback [(3, FeedbackType.positive), (7, FeedbackType.negative)] 3
      = some FeedbackType.positive ∧
    ((add_feedback ⟨1, 1, [(3, FeedbackType.positive), (7, FeedbackType.negative)]⟩ 3
        FeedbackType.negative).positive_feedbacks = 1 - 1 ∧
     (add_feedback ⟨1, 1, [(3, FeedbackType.positive), (7, FeedbackType.negative)]⟩ 3
        FeedbackType.negative).negative_feedbacks = 1 + 1 ∧
     (add_feedback ⟨1, 1, [(3, FeedbackType.positive), (7, FeedbackType.negative)]⟩ 3
        FeedbackType.negative).positive_feedbacks +
       (add_feedback ⟨1, 1, [(3, FeedbackType.positive), (7, FeedbackType.negative)]⟩ 3
        FeedbackType.negative).negative_feedbacks = 1 + 1) :=
  ⟨by decide, by decide,
    (add_feedback_switch_type_counters
      ⟨1, 1, [(3, FeedbackType.positive), (7, FeedbackType.negative)]⟩ 3
      (by decide)).1 (by decide)⟩

/-- Witness for claim C3 at a concrete state. -/
theorem remove_feedback_existing_row_witness :
    (([(3, FeedbackType.positive), (7, FeedbackType.negative)] :
        List (Nat × FeedbackType)).map Prod.fst).Nodup ∧
    findFeedback [(3, FeedbackType.positive), (7, FeedbackType.negative)] 3
      = some FeedbackType.positive ∧
    ((remove_feedback ⟨1, 1, [(3, FeedbackType.positive), (7, FeedbackType.negative)]⟩ 3).1
        = true ∧
     findFeedback (remove_feedback
        ⟨1, 1, [(3, FeedbackType.positive), (7, FeedbackType.negative)]⟩ 3).2.feedbacks 3
       = none) :=
  ⟨by decide, by decide,
    by
      have h := remove_feedback_existing_row
        ⟨1, 1, [(3, FeedbackType.positive), (7, FeedbackType.negative)]⟩ 3
        FeedbackType.positive (by decide) (by decide)
      exact ⟨h.1, h.2.1⟩⟩

/-- Witness for claim C10 at a concrete state. -/
theorem remove_feedback_missing_row_witness :
    findFeedback [(7, FeedbackType.negative)] 3 = none ∧
    remove_feedback ⟨0, 1, [(7, FeedbackType.negative)]⟩ 3
      = (false, ⟨0, 1, [(7, FeedbackType.negative)]⟩) :=
  ⟨by decide,
    remove_feedback_missing_row ⟨0, 1, [(7, FeedbackType.negative)]⟩ 3 (by decide)⟩

/-! ## User model (`models/user.py`, `crud/user.py`, `api/users.py`)

The `users` table is a list of rows; `query(User).filter(...).first()`
is a first-match search.  The password hash (`auth/jwt_utils.py`, an
external passlib call) is an abstract `hash : String → String`
parameter.  A route handler's `current_user` is the decoded token-claims
dictionary built at login: username, numeric id, role string, active
flag.  Handlers run behind the `get_current_active_user` /
`get_current_admin_user` dependency chain from `api/auth.py`, which is
inlined at the top of each handler; pydantic-level field validation
happens before the handler and is out of scope here.  `Except` models
`raise HTTPException`: an `.error` response leaves the database
untouched.
-/

/-- `UserTypeEnum` from `schemas/user.py` / `models/user.py`. -/
inductive UserType where
  | USER
  | ADMIN
deriving DecidableEq, Repr

/-- One row of the `users` table. -/
structure User where
  id : Nat
  username : String
  email : String
  full_name : String
  phone : Option String
  hashed_password : String
  user_type : UserType
  is_active : Bool
deriving DecidableEq, Repr

/-- `HTTPException(status_code, detail)`. -/
structure ApiError where
  status_code : Nat
  detail : String
deriving DecidableEq, Repr

/-- Decoded JWT claims carried by `current_user` in the handlers. -/
structure CurrentUser where
  user_id : Nat
  username : String
  user_type : UserType
  is_active : Bool
deriving DecidableEq, Repr

/-- `UserCreate` from `schemas/user.py` (post-validation field values). -/
structure UserCreate where
  username : String
  email : String
  full_name : String
  phone : Option String
  password : String
  user_type : UserType
  is_active : Bool
deriving DecidableEq, Repr

/-- `UserRegister` from `schemas/user.py`: the public-registration body;
it has no `user_type` field.  `phone` is `none` when absent (a provided
phone is non-empty, enforced by the pydantic validator). -/
structure UserRegister where
  username : String
  email : String
  full_name : String
  phone : Option String
  password : String
deriving DecidableEq, Repr

/-- `UserUpdate` from `schemas/user.py`: all fields optional; `some v`
means the field was present in the request body.  (A field explicitly
set to JSON `null` is not distinguished from an absent one; the only
handler check involved, `user_data.user_type is not None`, agrees with
this reading.) -/
structure UserUpdate where
  username : Option String
  email : Option String
  full_name : Option String
  phone : Option String
  password : Option String
  user_type : Option UserType
  is_active : Option Bool
deriving DecidableEq, Repr

namespace UserCRUD

/-- `UserCRUD.get_by_id`. -/
def get_by_id (db : List User) (user_id : Nat) : Option User :=
  db.find? (fun u => u.id == user_id)

/-- `UserCRUD.get_by_username`. -/
def get_by_username (db : List User) (username : String) : Option User :=
  db.find? (fun u => u.username == username)

/-- `UserCRUD.get_by_email`. -/
def get_by_email (db : List User) (email : String) : Option User :=
  db.find? (fun u => u.email == email)

/-- `UserCRUD.get_by_phone`: SQL equality never matches a NULL phone. -/
def get_by_phone (db : List User) (phone : String) : Option User :=
  db.find? (fun u => u.phone == some phone)

/-- `UserCRUD.create` (crud/user.py lines 12-23): hash the password,
insert the row; `new_id` stands for the autoincremented primary key. -/
def create (db : List User) (hash : String → String) (new_id : Nat)
    (user_data : UserCreate) : List User × User :=
  let db_user : User :=
    { id := new_id
      username := user_data.username
      email := user_data.email
      full_name := user_data.full_name
      phone := user_data.phone
      hashed_password := hash user_data.password
      user_type := user_data.user_type
      is_active := user_data.is_active }
  (db ++ [db_user], db_user)

/-- The `setattr` loop of `UserCRUD.update` over
`model_dump(exclude_unset=True)`, with the password re-hashed first. -/
def apply_update (hash : String → String) (u : User) (d : UserUpdate) : User :=
  { u with
    username := d.username.getD u.username
    email := d.email.getD u.email
    full_name := d.full_name.getD u.full_name
    phone := match d.phone with | some p => some p | none => u.phone
    hashed_password := match d.password with | some pw => hash pw | none => u.hashed_password
    user_type := d.user_type.getD u.user_type
    is_active := d.is_active.getD u.is_active }

/-- Replace the (first) row with this id — the in-place ORM mutation of
the object `get_by_id` returned. -/
def replaceById (db : List User) (user_id : Nat) (u' : User) : List User :=
  match db with
  | [] => []
  | v :: rest => if v.id = user_id then u' :: rest else v :: replaceById rest user_id u'

/-- `UserCRUD.update` (crud/user.py lines 45-63): `None` when the row is
missing, otherwise the new table and the updated row. -/
def update (db : List User) (hash : String → String) (user_id : Nat)
    (user_data : UserUpdate) : Option (List User × User) :=
  match get_by_id db user_id with
  | none => none
  | some db_user =>
      let u' := apply_update hash db_user user_data
      some (replaceById db user_id u', u')

/-- `UserCRUD.delete` (crud/user.py lines 65-73): hard delete; `False`
and no change when the row is missing. -/
def delete (db : List User) (user_id : Nat) : Bool × List User :=
  match get_by_id db user_id with
  | none => (false, db)
  | some _ => (true, db.eraseP (fun u => u.id == user_id))

end UserCRUD

/-- `POST /users/` (`create_user`, api/users.py lines 12-56): public
registration.  Rejects with 400 when the username, the email, or a
provided phone already exists, in that order; otherwise creates a
regular active user. -/
def create_user (db : List User) (hash : String → String) (new_id : Nat)
    (user_data : UserRegister) : Except ApiError (List User × User) :=
  if (UserCRUD.get_by_username db user_data.username).isSome then
    .error ⟨400, "Username already registered"⟩
  else if (UserCRUD.get_by_email db user_data.email).isSome then
    .error ⟨400, "Email already registered"⟩
  else if (match user_data.phone with
           | some p => (UserCRUD.get_by_phone db p).isSome
           | none => false) then
    .error ⟨400, "Phone number already registered"⟩
  else
    .ok (UserCRUD.create db hash new_id
      { username := user_data.username
        email := user_data.email
        full_name := user_data.full_name
        phone := user_data.phone
        password := user_data.password
        user_type := UserType.USER
        is_active := true })

/-- `PUT /users/me` (`update_my_profile`, api/users.py lines 95-116),
with the `get_current_active_user` dependency inlined. -/
def update_my_profile (db : List User) (hash : String → String)
    (current_user : CurrentUser) (user_data : UserUpdate) :
    Except ApiError (List User × User) :=
  if ¬ current_user.is_active then .error ⟨400, "Inactive user"⟩
  else if current_user.user_type ≠ UserType.ADMIN ∧ user_data.user_type.isSome then
    .error ⟨403, "Cannot change your own user type"⟩
  else
    match UserCRUD.update db hash current_user.user_id user_data with
    | none => .error ⟨404, "User not found"⟩
    | some r => .ok r

/-- `DELETE /users/me` (`delete_my_account`, api/users.py lines 118-137):
rejects any ADMIN caller before attempting the delete. -/
def delete_my_account (db : List User) (current_user : CurrentUser) :
    Except ApiError (List User) :=
  if ¬ current_user.is_active then .error ⟨400, "Inactive user"⟩
  else if current_user.user_type = UserType.ADMIN then
    .error ⟨400,
      "Admins cannot delete their own account. Use admin panel or contact another admin."⟩
  else
    match UserCRUD.delete db current_user.user_id with
    | (false, _) => .error ⟨404, "User not found"⟩
    | (true, db') => .ok db'

/-- `PUT /users/{user_id}` (`update_user`, api/users.py lines 236-265). -/
def update_user (db : List User) (hash : String → String)
    (current_user : CurrentUser) (user_id : Nat) (user_data : UserUpdate) :
    Except ApiError (List User × User) :=
  if ¬ current_user.is_active then .error ⟨400, "Inactive user"⟩
  else if current_user.user_type ≠ UserType.ADMIN ∧ current_user.user_id ≠ user_id then
    .error ⟨403, "Can only update your own profile or admin access required"⟩
  else if current_user.user_type ≠ UserType.ADMIN ∧ user_data.user_type.isSome then
    .error ⟨403, "Only admins can change user type"⟩
  else
    match UserCRUD.update db hash user_id user_data with
    | none => .error ⟨404, "User not found"⟩
    | some r => .ok r

/-- `DELETE /users/{user_id}` (`delete_user`, api/users.py lines
267-281), with the `get_current_admin_user` dependency inlined.  There
is no check that the admin is not deleting their own row. -/
def delete_user (db : List User) (current_admin : CurrentUser) (user_id : Nat) :
    Except ApiError (List User) :=
  if ¬ current_admin.is_active then .error ⟨400, "Inactive user"⟩
  else if current_admin.user_type ≠ UserType.ADMIN then
    .error ⟨403, "Admin access required"⟩
  else
    match UserCRUD.delete db user_id with
    | (false, _) => .error ⟨404, "User not found"⟩
    | (true, db') => .ok db'

/-! ### User-table lemmas -/

theorem get_by_id_eraseP_none (db : List User) (uid : Nat)
    (h : (db.map User.id).Nodup) :
    UserCRUD.get_by_id (db.eraseP (fun u => u.id == uid)) uid = none := by
  induction db with
  | nil => rfl
  | cons v rest ih =>
    simp only [List.map_cons, List.nodup_cons] at h
    by_cases hv : v.id = uid
    · rw [List.eraseP_cons_of_pos (by simp [hv])]
      rw [UserCRUD.get_by_id, List.find?_eq_none]
      intro x hx
      simp only [beq_iff_eq]
      intro hxid
      apply h.1
      rw [hv, ← hxid]
      exact List.mem_map_of_mem _ hx
    · rw [List.eraseP_cons_of_neg (by simp [hv])]
      rw [UserCRUD.get_by_id, List.find?_cons_of_neg _ (by simp [hv])]
      exact ih h.2

theorem get_by_id_replaceById (db : List User) (uid : Nat) (u' : User)
    (hid : u'.id = uid) (hex : (UserCRUD.get_by_id db uid).isSome) :
    UserCRUD.get_by_id (UserCRUD.replaceById db uid u') uid = some u' := by
  induction db with
  | nil => simp [UserCRUD.get_by_id] at hex
  | cons v rest ih =>
    by_cases hv : v.id = uid
    · simp only [UserCRUD.replaceById, if_pos hv]
      rw [UserCRUD.get_by_id, List.find?_cons_of_pos _ (by simp [hid])]
    · simp only [UserCRUD.replaceById, if_neg hv]
      rw [UserCRUD.get_by_id, List.find?_cons_of_neg _ (by simp [hv])]
      rw [UserCRUD.get_by_id, List.find?_cons_of_neg _ (by simp [hv])] at hex
      exact ih hex

theorem get_by_id_mem_id (db : List User) (uid : Nat) (u : User)
    (h : UserCRUD.get_by_id db uid = some u) : u.id = uid := by
  have := List.find?_some h
  simpa using this

/-- Claim C5: registration fails with HTTP 400 and creates no row
whenever the requested username, email, or (provided) phone already
belongs to some user; each duplicate condition suffices on its own.
(An `.error` result returns no table, so nothing is inserted.) -/
theorem create_user_duplicate_conflict (db : List User) (hash : String → String)
    (new_id : Nat) (reg : UserRegister)
    (hdup : (∃ u ∈ db, u.username = reg.username) ∨
            (∃ u ∈ db, u.email = reg.email) ∨
            (∃ p, reg.phone = some p ∧ ∃ u ∈ db, u.phone = some p)) :
    ∃ detail, create_user db hash new_id reg = .error ⟨400, detail⟩ := by
  unfold create_user
  split
  · exact ⟨_, rfl⟩
  · split
    · exact ⟨_, rfl⟩
    · split
      · exact ⟨_, rfl⟩
      · exfalso
        rename_i h1 h2 h3
        rcases hdup with ⟨u, hu, he⟩ | ⟨u, hu, he⟩ | ⟨p, hp, u, hu, he⟩
        · exact h1 (List.find?_isSome.mpr ⟨u, hu, by simp [he]⟩)
        · exact h2 (List.find?_isSome.mpr ⟨u, hu, by simp [he]⟩)
        · rw [hp] at h3
          exact h3 (List.find?_isSome.mpr ⟨u, hu, by simp [he]⟩)

/-- Witness for claim C5: a second registration reusing an existing
username is rejected with status 400. -/
theorem create_user_duplicate_conflict_witness :
    (∃ u ∈ [(⟨1, "alice", "alice@example.com", "Alice A", some "+201234567",
        "hpw", UserType.USER, true⟩ : User)], u.username = "alice") ∧
    ∃ detail,
      create_user
        [⟨1, "alice", "alice@example.com", "Alice A", some "+201234567",
          "hpw", UserType.USER, true⟩]
        (fun pw => pw) 2
        ⟨"alice", "other@example.com", "Other B", none, "secret123"⟩
      = .error ⟨400, detail⟩ :=
  ⟨by decide,
    create_user_duplicate_conflict _ (fun pw => pw) 2
      ⟨"alice", "other@example.com", "Other B", none, "secret123"⟩
      (Or.inl (by decide))⟩

/-- Claim C4 counterexample: an active admin calling
`DELETE /users/{user_id}` with their own id is NOT rejected — the call
succeeds and the admin's row is removed from the table. -/
theorem delete_user_admin_self_counterexample :
    delete_user
      [⟨1, "root", "root@example.com", "Root Admin", none, "hpw",
        UserType.ADMIN, true⟩]
      ⟨1, "root", UserType.ADMIN, true⟩ 1
      = .ok [] ∧
    UserCRUD.get_by_id ([] : List User) 1 = none := by
  constructor <;> rfl

/-- Claim C4 (amended): only `DELETE /users/me` rejects an admin
self-deletion (status 400, table untouched); `DELETE /users/{user_id}`
hard-deletes any existing row, the calling admin's own row included. -/
theorem admin_self_delete_amended (db : List User) (cu : CurrentUser)
    (hact : cu.is_active = true) (hadm : cu.user_type = UserType.ADMIN) :
    (∃ e, delete_my_account db cu = .error e ∧ e.status_code = 400) ∧
    (∀ u, UserCRUD.get_by_id db cu.user_id = some u →
      (db.map User.id).Nodup →
      ∃ db', delete_user db cu cu.user_id = .ok db' ∧
        UserCRUD.get_by_id db' cu.user_id = none) := by
  constructor
  · refine ⟨⟨400,
      "Admins cannot delete their own account. Use admin panel or contact another admin."⟩,
      ?_, rfl⟩
    unfold delete_my_account
    rw [if_neg (by simp [hact]), if_pos hadm]
  · intro u hu hnd
    refine ⟨db.eraseP (fun x => x.id == cu.user_id), ?_,
      get_by_id_eraseP_none db cu.user_id hnd⟩
    unfold delete_user UserCRUD.delete
    rw [if_neg (by simp [hact]), if_neg (by simp [hadm]), hu]

/-- Witness for the amended claim C4 at a concrete one-admin table. -/
theorem admin_self_delete_amended_witness :
    ((⟨1, "root", UserType.ADMIN, true⟩ : CurrentUser).is_active = true ∧
     (⟨1, "root", UserType.ADMIN, true⟩ : CurrentUser).user_type = UserType.ADMIN) ∧
    (∃ e, delete_my_account
        [⟨1, "root", "root@example.com", "Root Admin", none, "hpw",
          UserType.ADMIN, true⟩]
        ⟨1, "root", UserType.ADMIN, true⟩ = .error e ∧ e.status_code = 400) :=
  ⟨⟨rfl, rfl⟩,
    (admin_self_delete_amended
      [⟨1, "root", "root@example.com", "Root Admin", none, "hpw",
        UserType.ADMIN, true⟩]
      ⟨1, "root", UserType.ADMIN, true⟩ rfl rfl).1⟩

/-- Claim C8: a request whose body sets `user_type` is rejected with 403
by both `PUT /users/{user_id}` and `PUT /users/me` when the caller is
not an admin (whatever the target), while an admin caller's
`PUT /users/{user_id}` on an existing row succeeds and stores the new
`user_type`. -/
theorem update_user_user_type_authz (db : List User) (hash : String → String)
    (cu : CurrentUser) (user_id : Nat) (d : UserUpdate) (t : UserType)
    (hact : cu.is_active = true) (ht : d.user_type = some t) :
    (cu.user_type ≠ UserType.ADMIN →
      (∃ e, update_user db hash cu user_id d = .error e ∧ e.status_code = 403) ∧
      (∃ e, update_my_profile db hash cu d = .error e ∧ e.status_code = 403)) ∧
    (cu.user_type = UserType.ADMIN →
      ∀ u, UserCRUD.get_by_id db user_id = some u →
        ∃ db' u', update_user db hash cu user_id d = .ok (db', u') ∧
          u'.user_type = t ∧
          UserCRUD.get_by_id db' user_id = some u') := by
  constructor
  · intro hna
    constructor
    · by_cases hid : cu.user_id = user_id
      · refine ⟨⟨403, "Only admins can change user type"⟩, ?_, rfl⟩
        unfold update_user
        rw [if_neg (by simp [hact]), if_neg (by simp [hid]),
          if_pos ⟨hna, by simp [ht]⟩]
      · refine ⟨⟨403, "Can only update your own profile or admin access required"⟩,
          ?_, rfl⟩
        unfold update_user
        rw [if_neg (by simp [hact]), if_pos ⟨hna, hid⟩]
    · refine ⟨⟨403, "Cannot change your own user type"⟩, ?_, rfl⟩
      unfold update_my_profile
      rw [if_neg (by simp [hact]), if_pos ⟨hna, by simp [ht]⟩]
  · intro hadm u hu
    have hid : u.id = user_id := get_by_id_mem_id db user_id u hu
    have hid' : (UserCRUD.apply_update hash u d).id = user_id := hid
    refine ⟨UserCRUD.replaceById db user_id (UserCRUD.apply_update hash u d),
      UserCRUD.apply_update hash u d, ?_, ?_, ?_⟩
    · unfold update_user UserCRUD.update
      rw [if_neg (by simp [hact]), if_neg (by simp [hadm]),
        if_neg (by simp [hadm]), hu]
    · simp [UserCRUD.apply_update, ht]
    · exact get_by_id_replaceById db user_id _ hid' (by simp [hu])

/-- Witness for claim C8: a concrete non-admin self-update setting
`user_type` is rejected 403, and the same body from an admin succeeds. -/
theorem update_user_user_type_authz_witness :
    ((⟨2, "bob", UserType.USER, true⟩ : CurrentUser).user_type ≠ UserType.ADMIN →
      (∃ e, update_user
          [⟨2, "bob", "bob@example.com", "Bob B", none, "hpw", UserType.USER, true⟩]
          (fun pw => pw) ⟨2, "bob", UserType.USER, true⟩ 2
          ⟨none, none, none, none, none, some UserType.ADMIN, none⟩
        = .error e ∧ e.status_code = 403) ∧
      (∃ e, update_my_profile
          [⟨2, "bob", "bob@example.com", "Bob B", none, "hpw", UserType.USER, true⟩]
          (fun pw => pw) ⟨2, "bob", UserType.USER, true⟩
          ⟨none, none, none, none, none, some UserType.ADMIN, none⟩
        = .error e ∧ e.status_code = 403)) ∧
    ((⟨2, "bob", UserType.USER, true⟩ : CurrentUser).user_type = UserType.ADMIN →
      ∀ u, UserCRUD.get_by_id
          [⟨2, "bob", "bob@example.com", "Bob B", none, "hpw", UserType.USER, true⟩] 2
        = some u →
      ∃ db' u', update_user
          [⟨2, "bob", "bob@example.com", "Bob B", none, "hpw", UserType.USER, true⟩]
          (fun pw => pw) ⟨2, "bob", UserType.USER, true⟩ 2
          ⟨none, none, none, none, none, some UserType.ADMIN, none⟩
        = .ok (db', u') ∧ u'.user_type = UserType.ADMIN ∧
        UserCRUD.get_by_id db' 2 = some u') :=
  update_user_user_type_authz
    [⟨2, "bob", "bob@example.com", "Bob B", none, "hpw", UserType.USER, true⟩]
    (fun pw => pw) ⟨2, "bob", UserType.USER, true⟩ 2
    ⟨none, none, none, none, none, some UserType.ADMIN, none⟩
    UserType.ADMIN rfl rfl

/-! ## Image pipeline (`utils/image_utils.py`)

An uploaded file carries its declared content type, optional filename,
byte length, and — when PIL can decode it — the decoded image's
dimensions and mode.  PIL's decode/encode itself is a black box: the
model keeps the dimension arithmetic of `resize_image_if_needed`, done
here in exact rational arithmetic (the source uses Python floats;
`int()` truncation on these non-negative values is `Int.floor`). -/

def ALLOWED_CONTENT_TYPES : List String :=
  ["image/jpeg", "image/jpg", "image/png", "image/gif", "image/webp"]

def ALLOWED_EXTENSIONS : List String := [".jpg", ".jpeg", ".png", ".gif", ".webp"]

def MAX_FILE_SIZE : Nat := 5 * 1024 * 1024

def MAX_IMAGE_WIDTH : Nat := 1200

def MAX_IMAGE_HEIGHT : Nat := 800

/-- A PIL-decoded image: dimensions and mode. -/
structure DecodedImage where
  width : Nat
  height : Nat
  mode : String
deriving DecidableEq, Repr

/-- The re-encoded output written by `img.save(...)`: dimensions, the
mode it was saved from, and the save format. -/
structure EncodedImage where
  width : Nat
  height : Nat
  mode : String
  format : String
deriving DecidableEq, Repr

/-- A FastAPI `UploadFile`: declared content type, optional filename,
payload size in bytes, and the decoded image when the bytes are a
decodable image (`none` = `Image.open` raises). -/
structure UploadFile where
  content_type : String
  filename : Option String
  size : Nat
  image : Option DecodedImage
deriving DecidableEq, Repr

/-- Index of the last '.' in a character list, if any. -/
def lastDotIdx : List Char → Option Nat
  | [] => none
  | c :: rest =>
      match lastDotIdx rest with
      | some i => some (i + 1)
      | none => if c = '.' then some 0 else none

/-- `pathlib.Path(filename).suffix`: the extension of the final path
component — `name[i:]` for the last dot index `i` when `0 < i < len-1`,
otherwise the empty string. -/
def path_suffix (filename : String) : String :=
  let name := (filename.splitOn "/").getLastD ""
  let cs := name.toList
  match lastDotIdx cs with
  | some i => if 0 < i ∧ i < cs.length - 1 then String.mk (cs.drop i) else ""
  | none => ""

/-- `validate_image_file` (utils/image_utils.py lines 17-30). -/
def validate_image_file (file : UploadFile) : Bool :=
  if !(ALLOWED_CONTENT_TYPES.contains file.content_type) then
    false
  else
    match file.filename with
    | some filename =>
        let file_ext := (path_suffix filename).toLower
        if !(ALLOWED_EXTENSIONS.contains file_ext) then false else true
    | none => true

/-- `resize_image_if_needed` (utils/image_utils.py lines 32-73) at the
level of image dimensions: inside both bounds the image is re-saved as
JPEG unchanged in size; otherwise it is scaled by
`min(MAX_IMAGE_WIDTH/width, MAX_IMAGE_HEIGHT/height)` with `int()`
truncation of each new dimension.  In both branches an alpha-carrying
mode is converted to RGB before the JPEG save. -/
def resize_image_if_needed (img : DecodedImage) : EncodedImage :=
  let jpegMode := if img.mode ∈ ["RGBA", "LA", "P"] then "RGB" else img.mode
  if img.width ≤ MAX_IMAGE_WIDTH ∧ img.height ≤ MAX_IMAGE_HEIGHT then
    { width := img.width, height := img.height, mode := jpegMode, format := "JPEG" }
  else
    let ratio : ℚ :=
      min ((MAX_IMAGE_WIDTH : ℚ) / (img.width : ℚ))
        ((MAX_IMAGE_HEIGHT : ℚ) / (img.height : ℚ))
    let new_width : Nat := (Int.floor ((img.width : ℚ) * ratio)).toNat
    let new_height : Nat := (Int.floor ((img.height : ℚ) * ratio)).toNat
    { width := new_width, height := new_height, mode := jpegMode, format := "JPEG" }

/-- `process_uploaded_image` (utils/image_utils.py lines 75-112):
validate, bound the size, resize/re-encode, default the filename, and
force the returned content type to `image/jpeg`. -/
def process_uploaded_image (file : UploadFile) :
    Except ApiError (EncodedImage × String × String) :=
  if !(validate_image_file file) then
    .error ⟨400, "Invalid file type. Allowed: image/jpeg, image/jpg, image/png, image/gif, image/webp"⟩
  else if file.size > MAX_FILE_SIZE then
    .error ⟨400, "File too large. Maximum size: 5MB"⟩
  else
    match file.image with
    | none => .error ⟨400, "Failed to process image"⟩
    | some img =>
        .ok (resize_image_if_needed img, file.filename.getD "uploaded_image.jpg",
          "image/jpeg")

/-! ### Scaling lemmas -/

theorem floor_scale_le (wn bound : Nat) (r : ℚ) (hr : 0 ≤ r)
    (hb : (wn : ℚ) * r ≤ (bound : ℚ)) :
    (Int.floor ((wn : ℚ) * r)).toNat ≤ bound := by
  apply Int.toNat_le.mpr
  have h1 : Int.floor ((wn : ℚ) * r) ≤ Int.floor ((bound : ℚ)) := Int.floor_le_floor hb
  rwa [Int.floor_natCast] at h1

theorem floor_scale_aspect (wn hn : Nat) (r : ℚ) (hw : 0 < wn) (hh : 0 < hn)
    (hr : 0 ≤ r) :
    (Int.floor ((wn : ℚ) * r)).toNat * hn
      < ((Int.floor ((hn : ℚ) * r)).toNat + 1) * wn := by
  have hW0 : (0 : ℤ) ≤ Int.floor ((wn : ℚ) * r) :=
    Int.floor_nonneg.mpr (by positivity)
  have hH0 : (0 : ℤ) ≤ Int.floor ((hn : ℚ) * r) :=
    Int.floor_nonneg.mpr (by positivity)
  have h1 : ((Int.floor ((wn : ℚ) * r) : ℤ) : ℚ) ≤ (wn : ℚ) * r := Int.floor_le _
  have h2 : (hn : ℚ) * r < ((Int.floor ((hn : ℚ) * r) : ℤ) : ℚ) + 1 :=
    Int.lt_floor_add_one _
  have h3 : ((Int.floor ((wn : ℚ) * r) : ℤ) : ℚ) * (hn : ℚ)
      < (((Int.floor ((hn : ℚ) * r) : ℤ) : ℚ) + 1) * (wn : ℚ) := by
    calc ((Int.floor ((wn : ℚ) * r) : ℤ) : ℚ) * (hn : ℚ)
        ≤ ((wn : ℚ) * r) * (hn : ℚ) :=
          mul_le_mul_of_nonneg_right h1 (by positivity)
      _ = ((hn : ℚ) * r) * (wn : ℚ) := by ring
      _ < (((Int.floor ((hn : ℚ) * r) : ℤ) : ℚ) + 1) * (wn : ℚ) :=
          mul_lt_mul_of_pos_right h2 (by exact_mod_cast hw)
  zify
  rw [Int.toNat_of_nonneg hW0, Int.toNat_of_nonneg hH0]
  exact_mod_cast h3

/-- Dimension behaviour of `resize_image_if_needed`: the output is a
JPEG within the 1200×800 bounds; an input within the bounds keeps its
size; an oversized input is scaled with the common ratio, so the output
dimensions agree with the input aspect ratio up to the `int()`
truncation of each side. -/
theorem resize_image_bounds (img : DecodedImage)
    (hw : 0 < img.width) (hh : 0 < img.height) :
    (resize_image_if_needed img).format = "JPEG" ∧
    (resize_image_if_needed img).width ≤ MAX_IMAGE_WIDTH ∧
    (resize_image_if_needed img).height ≤ MAX_IMAGE_HEIGHT ∧
    (img.width ≤ MAX_IMAGE_WIDTH ∧ img.height ≤ MAX_IMAGE_HEIGHT →
      (resize_image_if_needed img).width = img.width ∧
      (resize_image_if_needed img).height = img.height) ∧
    (¬ (img.width ≤ MAX_IMAGE_WIDTH ∧ img.height ≤ MAX_IMAGE_HEIGHT) →
      (resize_image_if_needed img).width * img.height
          < ((resize_image_if_needed img).height + 1) * img.width ∧
      (resize_image_if_needed img).height * img.width
          < ((resize_image_if_needed img).width + 1) * img.height) := by
  by_cases hc : img.width ≤ MAX_IMAGE_WIDTH ∧ img.height ≤ MAX_IMAGE_HEIGHT
  · simp only [resize_image_if_needed, if_pos hc]
    refine ⟨?_, hc.1, hc.2, fun _ => ⟨?_, ?_⟩, fun hn => absurd hc hn⟩ <;> trivial
  · have hr0 : (0 : ℚ) ≤
        min ((MAX_IMAGE_WIDTH : ℚ) / (img.width : ℚ))
          ((MAX_IMAGE_HEIGHT : ℚ) / (img.height : ℚ)) :=
      le_min (by positivity) (by positivity)
    have hwq : (0 : ℚ) < (img.width : ℚ) := by exact_mod_cast hw
    have hhq : (0 : ℚ) < (img.height : ℚ) := by exact_mod_cast hh
    have hwb : (img.width : ℚ) *
        min ((MAX_IMAGE_WIDTH : ℚ) / (img.width : ℚ))
          ((MAX_IMAGE_HEIGHT : ℚ) / (img.height : ℚ)) ≤ (MAX_IMAGE_WIDTH : ℚ) := by
      calc (img.width : ℚ) * min _ _
          ≤ (img.width : ℚ) * ((MAX_IMAGE_WIDTH : ℚ) / (img.width : ℚ)) :=
            mul_le_mul_of_nonneg_left (min_le_left _ _) (by positivity)
        _ = (MAX_IMAGE_WIDTH : ℚ) := by field_simp
    have hhb : (img.height : ℚ) *
        min ((MAX_IMAGE_WIDTH : ℚ) / (img.width : ℚ))
          ((MAX_IMAGE_HEIGHT : ℚ) / (img.height : ℚ)) ≤ (MAX_IMAGE_HEIGHT : ℚ) := by
      calc (img.height : ℚ) * min _ _
          ≤ (img.height : ℚ) * ((MAX_IMAGE_HEIGHT : ℚ) / (img.height : ℚ)) :=
            mul_le_mul_of_nonneg_left (min_le_right _ _) (by positivity)
        _ = (MAX_IMAGE_HEIGHT : ℚ) := by field_simp
    simp only [resize_image_if_needed, if_neg hc]
    refine ⟨?_,
      floor_scale_le _ _ _ hr0 hwb,
      floor_scale_le _ _ _ hr0 hhb,
      fun hcc => absurd hcc hc,
      fun _ => ⟨floor_scale_aspect _ _ _ hw hh hr0,
        floor_scale_aspect _ _ _ hh hw hr0⟩⟩
    trivial

/-- Claim C6: a valid, size-bounded, decodable upload is processed to a
JPEG whose dimensions are within 1200×800; an input already within
bounds keeps its dimensions (but is still re-encoded as JPEG); an
oversized input is scaled preserving the aspect ratio up to rounding;
and the returned content type is always `image/jpeg`. -/
theorem process_uploaded_image_resize_jpeg (file : UploadFile) (img : DecodedImage)
    (hva : validate_image_file file = true)
    (hsz : file.size ≤ MAX_FILE_SIZE)
    (him : file.image = some img)
    (hw : 0 < img.width) (hh : 0 < img.height) :
    ∃ out, process_uploaded_image file
        = .ok (out, file.filename.getD "uploaded_image.jpg", "image/jpeg") ∧
      out.format = "JPEG" ∧
      out.width ≤ MAX_IMAGE_WIDTH ∧
      out.height ≤ MAX_IMAGE_HEIGHT ∧
      (img.width ≤ MAX_IMAGE_WIDTH ∧ img.height ≤ MAX_IMAGE_HEIGHT →
        out.width = img.width ∧ out.height = img.height) ∧
      (¬ (img.width ≤ MAX_IMAGE_WIDTH ∧ img.height ≤ MAX_IMAGE_HEIGHT) →
        out.width * img.height < (out.height + 1) * img.width ∧
        out.height * img.width < (out.width + 1) * img.height) := by
  have hres := resize_image_bounds img hw hh
  refine ⟨resize_image_if_needed img, ?_, hres.1, hres.2.1, hres.2.2.1,
    hres.2.2.2.1, hres.2.2.2.2⟩
  unfold process_uploaded_image
  rw [if_neg (by simp [hva]), if_neg (by omega), him]

/-- Witness for claim C6: a decodable 2400×800 PNG upload (no filename,
so the default name is used). -/
theorem process_uploaded_image_resize_jpeg_witness :
    validate_image_file ⟨"image/png", none, 1000,
        some ⟨2400, 800, "RGBA"⟩⟩ = true ∧
    (1000 : Nat) ≤ MAX_FILE_SIZE ∧
    (0 : Nat) < 2400 ∧ (0 : Nat) < 800 ∧
    ∃ out, process_uploaded_image ⟨"image/png", none, 1000,
          some ⟨2400, 800, "RGBA"⟩⟩
        = .ok (out, "uploaded_image.jpg", "image/jpeg") ∧
      out.format = "JPEG" ∧
      out.width ≤ MAX_IMAGE_WIDTH ∧
      out.height ≤ MAX_IMAGE_HEIGHT ∧
      ((2400 : Nat) ≤ MAX_IMAGE_WIDTH ∧ (800 : Nat) ≤ MAX_IMAGE_HEIGHT →
        out.width = 2400 ∧ out.height = 800) ∧
      (¬ ((2400 : Nat) ≤ MAX_IMAGE_WIDTH ∧ (800 : Nat) ≤ MAX_IMAGE_HEIGHT) →
        out.width * 800 < (out.height + 1) * 2400 ∧
        out.height * 2400 < (out.width + 1) * 800) :=
  ⟨by decide, by decide, by decide, by decide,
    process_uploaded_image_resize_jpeg
      ⟨"image/png", none, 1000, some ⟨2400, 800, "RGBA"⟩⟩
      ⟨2400, 800, "RGBA"⟩ (by decide) (by decide) rfl (by decide) (by decide)⟩

/-! ## Device registry and QR pipeline (`crud/device.py`, `utils/qr_utils.py`)

The QR rasterizer (the `qrcode` library) is a black box that encodes the
JSON payload built by `generate_device_qr_data` losslessly, so the
stored `qr_code_data` is modelled by the decoded payload itself: the
ordered key/value structure that `json.dumps` serializes.
`datetime.utcnow()` is an external `now : String` parameter. -/

/-- A JSON value as used in the QR payload. -/
inductive JsonValue where
  | num (n : Nat)
  | str (s : String)
deriving DecidableEq, Repr

/-- `generate_device_qr_data` (utils/qr_utils.py lines 42-65): the
payload dict in its `json.dumps` key order. -/
def generate_device_qr_data (device_id : Nat) (device_name : String)
    (version : String) (generated_at : String) : List (String × JsonValue) :=
  [("device_id", JsonValue.num device_id),
   ("device_name", JsonValue.str device_name),
   ("version", JsonValue.str version),
   ("type", JsonValue.str "device"),
   ("generated_at", JsonValue.str generated_at)]

/-- One row of the `devices` table (`models/device.py`). -/
structure Device where
  id : Nat
  device_name : String
  version : String
  description : Option String
  image_data : Option EncodedImage
  image_filename : Option String
  image_content_type : Option String
  qr_code_data : Option (List (String × JsonValue))
  is_active : Bool
deriving DecidableEq, Repr

/-- `DeviceCreate` from `schemas/device.py`. -/
structure DeviceCreate where
  device_name : String
  version : String
  description : Option String
deriving DecidableEq, Repr

/-- `DeviceUpdate` from `schemas/device.py`: `some v` = field present in
the request body. -/
structure DeviceUpdate where
  device_name : Option String
  version : Option String
  description : Option String
  is_active : Option Bool
deriving DecidableEq, Repr

namespace DeviceCRUD

/-- `DeviceCRUD.get_by_id`. -/
def get_by_id (db : List Device) (device_id : Nat) : Option Device :=
  db.find? (fun d => d.id == device_id)

/-- `DeviceCRUD.generate_qr_code` (crud/device.py lines 173-185):
overwrite `qr_code_data` from the current id, name, and version. -/
def generate_qr_code (device : Device) (now : String) : Device :=
  { device with qr_code_data := some (generate_device_qr_data device.id device.device_name device.version now) }

/-- In-place ORM mutation of the row `get_by_id` returned. -/
def replaceById (db : List Device) (device_id : Nat) (d' : Device) : List Device :=
  match db with
  | [] => []
  | v :: rest => if v.id = device_id then d' :: rest else v :: replaceById rest device_id d'

/-- The `setattr` loop of `DeviceCRUD.update` over
`dict(exclude_unset=True)`. -/
def apply_update (d : Device) (device_update : DeviceUpdate) : Device :=
  { d with
    device_name := device_update.device_name.getD d.device_name
    version := device_update.version.getD d.version
    description := match device_update.description with
      | some x => some x
      | none => d.description
    is_active := device_update.is_active.getD d.is_active }

/-- `DeviceCRUD.update` (crud/device.py lines 82-100): apply the partial
update, then regenerate the QR code exactly when `device_name` or
`version` was in the update's field set. -/
def update (db : List Device) (device_id : Nat) (device_update : DeviceUpdate)
    (now : String) : Option (List Device × Device) :=
  match get_by_id db device_id with
  | none => none
  | some db_device =>
      let d1 := apply_update db_device device_update
      let d2 :=
        if device_update.device_name.isSome ∨ device_update.version.isSome then
          generate_qr_code d1 now
        else d1
      some (replaceById db device_id d2, d2)

/-- `DeviceCRUD.update_device_image` (crud/device.py lines 102-119),
success path: replace only the three image columns. -/
def update_device_image (db : List Device) (device_id : Nat)
    (image : EncodedImage × String × String) : Option (List Device × Device) :=
  match get_by_id db device_id with
  | none => none
  | some db_device =>
      let d' := { db_device with
        image_data := some image.1
        image_filename := some image.2.1
        image_content_type := some image.2.2 }
      some (replaceById db device_id d', d')

/-- `DeviceCRUD.create_with_image` (crud/device.py lines 32-58): build
the row, attach the image only if its processing succeeded (a processing
exception is caught and logged), insert, then generate the QR code. -/
def create_with_image (db : List Device) (new_id : Nat) (device_data : DeviceCreate)
    (image_file : Option (Except ApiError (EncodedImage × String × String)))
    (now : String) : List Device × Device :=
  let db_device : Device :=
    { id := new_id
      device_name := device_data.device_name
      version := device_data.version
      description := device_data.description
      image_data := none
      image_filename := none
      image_content_type := none
      qr_code_data := none
      is_active := true }
  let db_device :=
    match image_file with
    | some (.ok (image_data, filename, content_type)) =>
        { db_device with
          image_data := some image_data
          image_filename := some filename
          image_content_type := some content_type }
    | some (.error _) => db_device
    | none => db_device
  let db_device := generate_qr_code db_device now
  (db ++ [db_device], db_device)

end DeviceCRUD

/-- `PostCreate` from `schemas/post.py` (header plus optional
description). -/
structure PostCreate where
  header : String
  description : Option String
deriving DecidableEq, Repr

/-- One row of the `posts` table (`models/post.py`), as
`PostCRUD.create_with_image` builds it. -/
structure PostRow where
  id : Nat
  header : String
  description : Option String
  image_data : Option EncodedImage
  image_filename : Option String
  image_content_type : Option String
  positive_feedbacks : Int
  negative_feedbacks : Int
  is_active : Bool
deriving DecidableEq, Repr

namespace PostCRUD

/-- `PostCRUD.create_with_image` (crud/post.py lines 29-53): build the
row with zeroed counters, attach the image only if its processing
succeeded (a processing exception is caught and logged), insert. -/
def create_with_image (db : List PostRow) (new_id : Nat) (post_data : PostCreate)
    (image_file : Option (Except ApiError (EncodedImage × String × String))) :
    List PostRow × PostRow :=
  let db_post : PostRow :=
    { id := new_id
      header := post_data.header
      description := post_data.description
      image_data := none
      image_filename := none
      image_content_type := none
      positive_feedbacks := 0
      negative_feedbacks := 0
      is_active := true }
  let db_post :=
    match image_file with
    | some (.ok (image_data, filename, content_type)) =>
        { db_post with
          image_data := some image_data
          image_filename := some filename
          image_content_type := some content_type }
    | some (.error _) => db_post
    | none => db_post
  (db ++ [db_post], db_post)

end PostCRUD

/-- Claim C7 counterexample: the decoded QR payload does not contain
exactly the device id, name, and version — the code also embeds a fixed
`"type": "device"` tag and a `generated_at` timestamp. -/
theorem qr_payload_extra_keys_counterexample :
    (generate_device_qr_data 1 "Sensor-A" "1.0" "2026-01-01T00:00:00").map Prod.fst
      = ["device_id", "device_name", "version", "type", "generated_at"] ∧
    (generate_device_qr_data 1 "Sensor-A" "1.0" "2026-01-01T00:00:00").map Prod.fst
      ≠ ["device_id", "device_name", "version"] := by
  refine ⟨rfl, ?_⟩
  decide

/-- Claim C7 (amended): a device update whose field set includes
`device_name` or `version` regenerates the QR code, whose decoded
payload holds the device id, the updated name, and the updated version,
together with the fixed `"type": "device"` tag and a generation
timestamp — and nothing else; an update touching only description or
`is_active`, or an image replacement, leaves the stored QR code
unchanged. -/
theorem device_update_qr_payload (db : List Device) (device_id : Nat)
    (u : DeviceUpdate) (now : String) (d : Device)
    (hd : DeviceCRUD.get_by_id db device_id = some d) :
    (u.device_name.isSome ∨ u.version.isSome →
      ∃ db' d', DeviceCRUD.update db device_id u now = some (db', d') ∧
        d'.id = d.id ∧
        d'.device_name = u.device_name.getD d.device_name ∧
        d'.version = u.version.getD d.version ∧
        d'.qr_code_data = some
          [("device_id", JsonValue.num d.id),
           ("device_name", JsonValue.str (u.device_name.getD d.device_name)),
           ("version", JsonValue.str (u.version.getD d.version)),
           ("type", JsonValue.str "device"),
           ("generated_at", JsonValue.str now)]) ∧
    (u.device_name = none ∧ u.version = none →
      ∃ db' d', DeviceCRUD.update db device_id u now = some (db', d') ∧
        d'.qr_code_data = d.qr_code_data) ∧
    (∀ image : EncodedImage × String × String,
      ∃ db' d', DeviceCRUD.update_device_image db device_id image = some (db', d') ∧
        d'.qr_code_data = d.qr_code_data) := by
  refine ⟨?_, ?_, ?_⟩
  · intro h
    refine ⟨DeviceCRUD.replaceById db device_id
        (DeviceCRUD.generate_qr_code (DeviceCRUD.apply_update d u) now),
      DeviceCRUD.generate_qr_code (DeviceCRUD.apply_update d u) now,
      ?_, rfl, rfl, rfl, rfl⟩
    unfold DeviceCRUD.update
    rw [hd]
    dsimp only
    rw [if_pos h]
  · intro h
    refine ⟨DeviceCRUD.replaceById db device_id (DeviceCRUD.apply_update d u),
      DeviceCRUD.apply_update d u, ?_, rfl⟩
    unfold DeviceCRUD.update
    rw [hd]
    dsimp only
    rw [if_neg (by simp [h.1, h.2])]
  · intro image
    refine ⟨DeviceCRUD.replaceById db device_id
        { d with image_data := some image.1, image_filename := some image.2.1, image_content_type := some image.2.2 },
      { d with image_data := some image.1, image_filename := some image.2.1, image_content_type := some image.2.2 },
      ?_, rfl⟩
    unfold DeviceCRUD.update_device_image
    rw [hd]

/-- Witness for the amended claim C7: renaming a concrete device
regenerates its QR payload with the new name; a description-only update
and an image replacement keep the old QR bytes. -/
theorem device_update_qr_payload_witness :
    DeviceCRUD.get_by_id
      [⟨5, "Sensor-A", "1.0", none, none, none, none,
        some (generate_device_qr_data 5 "Sensor-A" "1.0" "t0"), true⟩] 5
      = some ⟨5, "Sensor-A", "1.0", none, none, none, none,
        some (generate_device_qr_data 5 "Sensor-A" "1.0" "t0"), true⟩ ∧
    ((⟨some "Sensor-B", none, none, none⟩ : DeviceUpdate).device_name.isSome ∨
      (⟨some "Sensor-B", none, none, none⟩ : DeviceUpdate).version.isSome) ∧
    (∃ db' d', DeviceCRUD.update
        [⟨5, "Sensor-A", "1.0", none, none, none, none,
          some (generate_device_qr_data 5 "Sensor-A" "1.0" "t0"), true⟩] 5
        ⟨some "Sensor-B", none, none, none⟩ "t1" = some (db', d') ∧
      d'.id = 5 ∧
      d'.device_name = "Sensor-B" ∧
      d'.version = "1.0" ∧
      d'.qr_code_data = some
        [("device_id", JsonValue.num 5),
         ("device_name", JsonValue.str "Sensor-B"),
         ("version", JsonValue.str "1.0"),
         ("type", JsonValue.str "device"),
         ("generated_at", JsonValue.str "t1")]) :=
  ⟨rfl, Or.inl rfl,
    (device_update_qr_payload
      [⟨5, "Sensor-A", "1.0", none, none, none, none,
        some (generate_device_qr_data 5 "Sensor-A" "1.0" "t0"), true⟩] 5
      ⟨some "Sensor-B", none, none, none⟩ "t1"
      ⟨5, "Sensor-A", "1.0", none, none, none, none,
        some (generate_device_qr_data 5 "Sensor-A" "1.0" "t0"), true⟩
      rfl).1 (Or.inl rfl)⟩

/-- Claim C9: when processing of the supplied image raises, both
`PostCRUD.create_with_image` and `DeviceCRUD.create_with_image` swallow
the exception and still insert and return the new row, with all three
image columns NULL; creation never fails because of a bad optional
image. -/
theorem create_with_image_swallows_processing_error
    (pdb : List PostRow) (ddb : List Device) (pid did : Nat)
    (post_data : PostCreate) (device_data : DeviceCreate)
    (e e' : ApiError) (now : String) :
    ((PostCRUD.create_with_image pdb pid post_data (some (.error e))).1
        = pdb ++ [(PostCRUD.create_with_image pdb pid post_data (some (.error e))).2] ∧
      (PostCRUD.create_with_image pdb pid post_data (some (.error e))).2.id = pid ∧
      (PostCRUD.create_with_image pdb pid post_data (some (.error e))).2.image_data = none ∧
      (PostCRUD.create_with_image pdb pid post_data (some (.error e))).2.image_filename = none ∧
      (PostCRUD.create_with_image pdb pid post_data (some (.error e))).2.image_content_type = none) ∧
    ((DeviceCRUD.create_with_image ddb did device_data (some (.error e')) now).1
        = ddb ++ [(DeviceCRUD.create_with_image ddb did device_data (some (.error e')) now).2] ∧
      (DeviceCRUD.create_with_image ddb did device_data (some (.error e')) now).2.id = did ∧
      (DeviceCRUD.create_with_image ddb did device_data (some (.error e')) now).2.image_data = none ∧
      (DeviceCRUD.create_with_image ddb did device_data (some (.error e')) now).2.image_filename = none ∧
      (DeviceCRUD.create_with_image ddb did device_data (some (.error e')) now).2.image_content_type = none) :=
  ⟨⟨rfl, rfl, rfl, rfl, rfl⟩, ⟨rfl, rfl, rfl, rfl, rfl⟩⟩
